import Mathlib

/-!
Verification of the integration-visualizer frontend against its specification.

The repository ships a React frontend whose demo mode answers API requests from
a static catalog (`src/utils/demoData.js`, function `getDemoResponse`), a
msgpack API client (`src/utils/api.js`: `realApiRequest`, `demoApiRequest`,
`apiRequest`, `getComputeConfig`) and a computation hook
(`src/hooks/useComputation.js`: `compute`).  This file embeds those functions
shallowly:

* JSON objects become Lean structures whose fields are `Option`-valued when the
  corresponding key may be absent; numeric literals are embedded as `ℚ` at
  their decimal value.
* Visualization payloads (sampled floating-point arrays produced with
  `Math.cos`/`Math.sin`) are modelled only by the presence of the
  `visualization` key (`Option Unit`), since no claim inspects their contents.
* JavaScript's `a || b` on strings (empty string falsy) is `jsOrStr`;
  a possibly-undefined request body is `Option ReqBody`.
* Thrown exceptions become `Except String`.
-/

/-- Numeric integral value object as it appears in the demo data:
`{symbolic, numerical, error}` (plus latex fields that no claim inspects). -/
structure IntegralValue where
  symbolic : Option String := none
  numerical : ℚ := 0
  error : ℚ := 0
deriving DecidableEq, Repr

/-- Verification object of the theorem responses.  In `DEMO_STOKES` the two
keys are `line`/`surface`, in `DEMO_DIVERGENCE` they are `surface`/`volume`;
`boundary` embeds the first key and `interior` the second, `difference` is the
`difference` key of both. -/
structure Verification where
  boundary : ℚ
  interior : ℚ
  difference : ℚ
deriving DecidableEq, Repr

/-- Shape of the `result` key: the integrate endpoints carry an
`IntegralValue`, `DEMO_VECTOR_OPS.gradient`/`.curl` carry three component
strings, `DEMO_VECTOR_OPS.divergence` carries a single string. -/
inductive ResultVal where
  | integral (v : IntegralValue)
  | comps (x y z : String)
  | scalar (s : String)
deriving DecidableEq, Repr

/-- Union of the demo/server response objects, restricted to the keys the
claims inspect.  A `none` field embeds an absent key.  The `visualization`
payload is modelled by presence only. -/
structure DemoResponse where
  success : Option Bool := none
  error : Option String := none
  result : Option ResultVal := none
  line_integral : Option IntegralValue := none
  surface_integral : Option IntegralValue := none
  flux_integral : Option IntegralValue := none
  volume_integral : Option IntegralValue := none
  verification : Option Verification := none
  curl_z : Option String := none
  parsed : Option String := none
  operation : Option String := none
  visualization : Option Unit := none
deriving DecidableEq, Repr

/-- Request body, restricted to the keys the demo lookup and the claims
inspect (`operation` for `/api/vector/operations`; `expression` and the
`u_range`/`v_range` pairs appear in request bodies built by
`getComputeConfig`). -/
structure ReqBody where
  operation : Option String := none
  expression : Option String := none
  integrand : Option String := none
  u_range : Option (List String) := none
  v_range : Option (List String) := none
deriving DecidableEq, Repr

/-- JavaScript `a || b` for an optional string: `undefined` and `''` are
falsy. -/
def jsOrStr (a : Option String) (b : String) : String :=
  match a with
  | some s => if s = "" then b else s
  | none => b

/-- Own property names of `Object.prototype`, inherited by every JavaScript
object literal.  Bracket access `DEMO_VECTOR_OPS[op]` at one of these names
returns the inherited member — a truthy function (or, for `__proto__`, the
`Object.prototype` object itself) — instead of `undefined`. -/
def objectPrototypeKeys : List String :=
  ["constructor", "hasOwnProperty", "isPrototypeOf", "propertyIsEnumerable",
   "toLocaleString", "toString", "valueOf",
   "__defineGetter__", "__defineSetter__", "__lookupGetter__", "__lookupSetter__",
   "__proto__"]

/-- A JavaScript value the demo lookup can produce: one of the catalog
response objects, or a member inherited from `Object.prototype`
(`protoMember name` embeds the function `Object.prototype[name]`; for
`name = "__proto__"` it is the `Object.prototype` object itself).  Inherited
members carry none of the response keys: property reads on them yield
`undefined`. -/
inductive JsValue where
  | response (r : DemoResponse)
  | protoMember (name : String)
deriving DecidableEq, Repr

/-- JavaScript property read `v.success`: `undefined` (none) on inherited
prototype members. -/
def JsValue.success : JsValue → Option Bool
  | .response r => r.success
  | .protoMember _ => none

/-- JavaScript property read `v.result`: `undefined` (none) on inherited
prototype members. -/
def JsValue.result : JsValue → Option ResultVal
  | .response r => r.result
  | .protoMember _ => none

/-- JavaScript property read `v.visualization`: `undefined` (none) on
inherited prototype members. -/
def JsValue.visualization : JsValue → Option Unit
  | .response r => r.visualization
  | .protoMember _ => none

-- ---- 1D: integral of x^2 from 0 to 1 ----
def DEMO_1D : DemoResponse :=
  { success := some true
    result := some (.integral { symbolic := some "1/3", numerical := 0.333333, error := 3.7e-15 })
    visualization := some () }

-- ---- 2D: x^2+y^2 over [0,1]x[0,1] ----
def DEMO_2D : DemoResponse :=
  { success := some true
    result := some (.integral { symbolic := some "2/3", numerical := 0.666667, error := 7.4e-15 })
    visualization := some () }

-- ---- 3D: 1 over unit box (volume = 1) ----
def DEMO_3D : DemoResponse :=
  { success := some true
    result := some (.integral { symbolic := some "1", numerical := 1.0, error := 0.001 })
    visualization := some () }

-- ---- Line scalar: arc length of unit circle = 2pi ----
def DEMO_LINE_SCALAR : DemoResponse :=
  { success := some true
    result := some (.integral { symbolic := some "2*pi", numerical := 6.283185, error := 1e-12 })
    visualization := some () }

-- ---- Line vector: circulation of (-y,x,0) around unit circle = 2pi ----
def DEMO_LINE_VECTOR : DemoResponse :=
  { success := some true
    result := some (.integral { symbolic := some "2*pi", numerical := 6.283185, error := 1e-12 })
    visualization := some () }

-- ---- Surface scalar: hemisphere area = 2pi ----
def DEMO_SURFACE_SCALAR : DemoResponse :=
  { success := some true
    result := some (.integral { symbolic := some "2*pi", numerical := 6.283185, error := 1e-10 })
    visualization := some () }

-- ---- Flux: radial field through hemisphere ----
def DEMO_FLUX : DemoResponse :=
  { success := some true
    result := some (.integral { symbolic := some "2*pi", numerical := 6.283185, error := 1e-10 })
    visualization := some () }

-- ---- Vector operations: an object with keys gradient / divergence / curl ----
namespace DEMO_VECTOR_OPS

def gradient : DemoResponse :=
  { success := some true
    operation := some "gradient"
    result := some (.comps "2*x" "2*y" "2*z") }

def divergence : DemoResponse :=
  { success := some true
    operation := some "divergence"
    result := some (.scalar "3") }

def curl : DemoResponse :=
  { success := some true
    operation := some "curl"
    result := some (.comps "0" "0" "2") }

/-- Key lookup `DEMO_VECTOR_OPS[op]`: the three own properties of the object
literal, then the prototype chain — at an `Object.prototype` property name the
access returns the inherited member (truthy), and only other names yield
`undefined`. -/
def lookup (op : String) : Option JsValue :=
  if op = "gradient" then some (.response gradient)
  else if op = "divergence" then some (.response divergence)
  else if op = "curl" then some (.response curl)
  else if op ∈ objectPrototypeKeys then some (.protoMember op)
  else none

end DEMO_VECTOR_OPS

-- ---- Vector field viz ----
def DEMO_VECTOR_FIELD : DemoResponse :=
  { success := some true
    visualization := some () }

-- ---- Theorems ----
def DEMO_GREENS : DemoResponse :=
  { success := some true
    line_integral := some { symbolic := some "pi", numerical := 3.141593, error := 1e-12 }
    curl_z := some "1"
    visualization := some () }

def DEMO_STOKES : DemoResponse :=
  { success := some true
    line_integral := some { symbolic := some "2*pi", numerical := 6.283185, error := 1e-12 }
    surface_integral := some { symbolic := some "2*pi", numerical := 6.283185, error := 1e-10 }
    verification := some { boundary := 6.283185, interior := 6.283185, difference := 1e-10 }
    visualization := some () }

def DEMO_DIVERGENCE : DemoResponse :=
  { success := some true
    flux_integral := some { symbolic := some "4*pi", numerical := 12.566371, error := 0.01 }
    volume_integral := some { symbolic := some "4*pi", numerical := 12.566371, error := 0.05 }
    verification := some { boundary := 12.566371, interior := 12.566371, difference := 0.001 }
    visualization := some () }

-- ---- Physics (no `visualization` key in either object) ----
def DEMO_FIELD_LINES : DemoResponse :=
  { success := some true }

def DEMO_EQUIPOTENTIAL : DemoResponse :=
  { success := some true }

-- ---- Parse ----
def DEMO_PARSE : DemoResponse :=
  { success := some true
    parsed := some "x**2" }

-- ---- Health (no `success` key) ----
def DEMO_HEALTH : DemoResponse := {}

-- ---- Examples catalog (no `success` key; contents uninspected by claims) ----
def DEMO_EXAMPLES : DemoResponse := {}

-- ---- LaTeX export ----
def DEMO_LATEX_EXPORT : DemoResponse :=
  { success := some true }

/-- Embedding of `getDemoResponse(method, path, body)` from
`src/utils/demoData.js`: a pure lookup of a pre-computed response for the
given endpoint and body; `none` embeds the JavaScript `null`.  Every branch
returns a catalog response object except `/api/vector/operations`, whose
bracket access `DEMO_VECTOR_OPS[op]` can also hit an inherited
`Object.prototype` member; such a member is truthy, so the
`|| DEMO_VECTOR_OPS.gradient` fallback does not replace it. -/
def getDemoResponse (method path : String) (body : Option ReqBody) : Option JsValue :=
  if method = "GET" then
    if path = "/api/health" then some (.response DEMO_HEALTH)
    else if path = "/api/examples" then some (.response DEMO_EXAMPLES)
    else none
  else
  if path = "/api/parse" then some (.response DEMO_PARSE)
  else if path = "/api/integrate/1d" then some (.response DEMO_1D)
  else if path = "/api/integrate/2d" then some (.response DEMO_2D)
  else if path = "/api/integrate/3d" then some (.response DEMO_3D)
  else if path = "/api/integrate/line/scalar" then some (.response DEMO_LINE_SCALAR)
  else if path = "/api/integrate/line/vector" then some (.response DEMO_LINE_VECTOR)
  else if path = "/api/integrate/surface/scalar" then some (.response DEMO_SURFACE_SCALAR)
  else if path = "/api/integrate/flux" then some (.response DEMO_FLUX)
  else if path = "/api/vector/operations" then
    some ((DEMO_VECTOR_OPS.lookup (jsOrStr (body.bind ReqBody.operation) "gradient")).getD
      (.response DEMO_VECTOR_OPS.gradient))
  else if path = "/api/visualize/vector_field" then some (.response DEMO_VECTOR_FIELD)
  else if path = "/api/theorem/greens" then some (.response DEMO_GREENS)
  else if path = "/api/theorem/stokes" then some (.response DEMO_STOKES)
  else if path = "/api/theorem/divergence" then some (.response DEMO_DIVERGENCE)
  else if path = "/api/physics/field_lines" then some (.response DEMO_FIELD_LINES)
  else if path = "/api/physics/equipotential" then some (.response DEMO_EQUIPOTENTIAL)
  else if path = "/api/export/latex" then some (.response DEMO_LATEX_EXPORT)
  else none

/-!  Embedding of `src/utils/api.js`.  The network transport (fetch + msgpack
decode) is abstracted: the decoded server response of the real branch enters
`realApiRequest` as its argument.  A thrown `Error(msg)` becomes
`Except.error msg`. -/

/-- Embedding of `realApiRequest`: checks the decoded response's `success`
flag; on a falsy flag throws `data.error || 'Computation failed'`, otherwise
resolves with the data. -/
def realApiRequest (data : DemoResponse) : Except String DemoResponse :=
  if data.success = some true then .ok data
  else .error (jsOrStr data.error "Computation failed")

/-- Embedding of `demoApiRequest`: looks up the demo catalog at
`'/api' + endpoint` and throws when no entry matches (`!data` is true only for
`null`: every value the lookup can return — a response object or an inherited
prototype member — is truthy). -/
def demoApiRequest (endpoint : String) (body : Option ReqBody) :
    Except String JsValue :=
  match getDemoResponse "POST" ("/api" ++ endpoint) body with
  | none => .error "This endpoint is not available in demo mode"
  | some d => .ok d

/-- Embedding of `apiRequest`: demo branch when `isDemo`, otherwise the real
request whose decoded server response is `server` (msgpack decoding produces
plain data, so the real branch always resolves a response object). -/
def apiRequest (isDemo : Bool) (server : DemoResponse) (endpoint : String)
    (body : Option ReqBody) : Except String JsValue :=
  if isDemo then demoApiRequest endpoint body
  else
    match realApiRequest server with
    | .ok d => .ok (.response d)
    | .error e => .error e

/-- Swap of the two surface-parameter ranges in a request body (the flux
request carries `u_range`/`v_range`). -/
def swapUV (b : ReqBody) : ReqBody :=
  { b with u_range := b.v_range, v_range := b.u_range }

/-- Modelled from the spec: the declared variable set of the Expression
Engine, `{x, y, z, t, u, v}` (§3 Data Model); the backend parser module itself
is not part of the shipped sources.  Used only to exhibit a concrete
undeclared identifier. -/
def declaredVariables : List String := ["x", "y", "z", "t", "u", "v"]

/-- Concrete decoded server response with a false `success` flag, used to
exercise the failure path of `apiRequest`. -/
def serverFailure : DemoResponse := { success := some false, error := some "boom" }

/-- Case analysis principle for the POST branch of `getDemoResponse`: any
property holding at all eighteen catalog objects and at every inherited
prototype member holds at every value the lookup can return. -/
theorem getDemoResponse_post_elim (P : JsValue → Prop)
    (hParse : P (.response DEMO_PARSE)) (h1d : P (.response DEMO_1D))
    (h2d : P (.response DEMO_2D)) (h3d : P (.response DEMO_3D))
    (hls : P (.response DEMO_LINE_SCALAR)) (hlv : P (.response DEMO_LINE_VECTOR))
    (hss : P (.response DEMO_SURFACE_SCALAR)) (hfx : P (.response DEMO_FLUX))
    (hvg : P (.response DEMO_VECTOR_OPS.gradient))
    (hvd : P (.response DEMO_VECTOR_OPS.divergence))
    (hvc : P (.response DEMO_VECTOR_OPS.curl))
    (hvf : P (.response DEMO_VECTOR_FIELD))
    (hgr : P (.response DEMO_GREENS)) (hst : P (.response DEMO_STOKES))
    (hdv : P (.response DEMO_DIVERGENCE)) (hfl : P (.response DEMO_FIELD_LINES))
    (heq : P (.response DEMO_EQUIPOTENTIAL)) (hlx : P (.response DEMO_LATEX_EXPORT))
    (hpm : ∀ name, P (.protoMember name))
    (path : String) (body : Option ReqBody) (r : JsValue)
    (h : getDemoResponse "POST" path body = some r) : P r := by
  have hPG : ¬ (("POST" : String) = "GET") := by decide
  unfold getDemoResponse at h
  rw [if_neg hPG] at h
  by_cases c1 : path = "/api/parse"
  · rw [if_pos c1] at h; injection h with h; subst h; exact hParse
  rw [if_neg c1] at h
  by_cases c2 : path = "/api/integrate/1d"
  · rw [if_pos c2] at h; injection h with h; subst h; exact h1d
  rw [if_neg c2] at h
  by_cases c3 : path = "/api/integrate/2d"
  · rw [if_pos c3] at h; injection h with h; subst h; exact h2d
  rw [if_neg c3] at h
  by_cases c4 : path = "/api/integrate/3d"
  · rw [if_pos c4] at h; injection h with h; subst h; exact h3d
  rw [if_neg c4] at h
  by_cases c5 : path = "/api/integrate/line/scalar"
  · rw [if_pos c5] at h; injection h with h; subst h; exact hls
  rw [if_neg c5] at h
  by_cases c6 : path = "/api/integrate/line/vector"
  · rw [if_pos c6] at h; injection h with h; subst h; exact hlv
  rw [if_neg c6] at h
  by_cases c7 : path = "/api/integrate/surface/scalar"
  · rw [if_pos c7] at h; injection h with h; subst h; exact hss
  rw [if_neg c7] at h
  by_cases c8 : path = "/api/integrate/flux"
  · rw [if_pos c8] at h; injection h with h; subst h; exact hfx
  rw [if_neg c8] at h
  by_cases c9 : path = "/api/vector/operations"
  · rw [if_pos c9] at h; injection h with h; subst h
    unfold DEMO_VECTOR_OPS.lookup
    by_cases d1 : jsOrStr (body.bind ReqBody.operation) "gradient" = "gradient"
    · rw [if_pos d1]; exact hvg
    rw [if_neg d1]
    by_cases d2 : jsOrStr (body.bind ReqBody.operation) "gradient" = "divergence"
    · rw [if_pos d2]; exact hvd
    rw [if_neg d2]
    by_cases d3 : jsOrStr (body.bind ReqBody.operation) "gradient" = "curl"
    · rw [if_pos d3]; exact hvc
    rw [if_neg d3]
    by_cases d4 : jsOrStr (body.bind ReqBody.operation) "gradient" ∈ objectPrototypeKeys
    · rw [if_pos d4]; exact hpm _
    rw [if_neg d4]; exact hvg
  rw [if_neg c9] at h
  by_cases c10 : path = "/api/visualize/vector_field"
  · rw [if_pos c10] at h; injection h with h; subst h; exact hvf
  rw [if_neg c10] at h
  by_cases c11 : path = "/api/theorem/greens"
  · rw [if_pos c11] at h; injection h with h; subst h; exact hgr
  rw [if_neg c11] at h
  by_cases c12 : path = "/api/theorem/stokes"
  · rw [if_pos c12] at h; injection h with h; subst h; exact hst
  rw [if_neg c12] at h
  by_cases c13 : path = "/api/theorem/divergence"
  · rw [if_pos c13] at h; injection h with h; subst h; exact hdv
  rw [if_neg c13] at h
  by_cases c14 : path = "/api/physics/field_lines"
  · rw [if_pos c14] at h; injection h with h; subst h; exact hfl
  rw [if_neg c14] at h
  by_cases c15 : path = "/api/physics/equipotential"
  · rw [if_pos c15] at h; injection h with h; subst h; exact heq
  rw [if_neg c15] at h
  by_cases c16 : path = "/api/export/latex"
  · rw [if_pos c16] at h; injection h with h; subst h; exact hlx
  rw [if_neg c16] at h
  exact Option.noConfusion h

/-- No value the POST branch of `getDemoResponse` can return has a `success`
key holding `false`: the catalog responses carry `success: true` and inherited
prototype members have no `success` key at all. -/
theorem getDemoResponse_post_success_not_false (path : String)
    (body : Option ReqBody) (v : JsValue)
    (h : getDemoResponse "POST" path body = some v) :
    v.success ≠ some false :=
  getDemoResponse_post_elim (fun v => v.success ≠ some false)
    (by decide) (by decide) (by decide) (by decide) (by decide) (by decide)
    (by decide) (by decide) (by decide) (by decide) (by decide) (by decide)
    (by decide) (by decide) (by decide) (by decide) (by decide) (by decide)
    (fun _ => by simp [JsValue.success])
    path body v h

/-- Every catalog response object the POST branch of `getDemoResponse` can
return carries `success: true`. -/
theorem getDemoResponse_post_response_success (path : String)
    (body : Option ReqBody) (v : JsValue)
    (h : getDemoResponse "POST" path body = some v) :
    ∀ r, v = .response r → r.success = some true := by
  refine getDemoResponse_post_elim (fun v => ∀ r, v = .response r → r.success = some true)
    ?_ ?_ ?_ ?_ ?_ ?_ ?_ ?_ ?_ ?_ ?_ ?_ ?_ ?_ ?_ ?_ ?_ ?_
    (fun _ r hr => JsValue.noConfusion hr) path body v h
  all_goals intro r hr
  all_goals first
    | exact JsValue.noConfusion hr
    | (injection hr with hr; subst hr; rfl)

/-- Claim C7: `apiRequest` never resolves with a value whose `success` field
is `false` — every resolved catalog response object carries `success: true`
and an inherited prototype member has no `success` key (`undefined`, not
`false`) — and in the real branch a decoded server response with a falsy
`success` makes `apiRequest` throw the response's error message (or
`'Computation failed'`), so no failed computation is returned as a plain
value. -/
theorem apiRequest_no_silent_failure (isDemo : Bool) (server : DemoResponse)
    (endpoint : String) (body : Option ReqBody) :
    (∀ d, apiRequest isDemo server endpoint body = .ok d → d.success ≠ some false) ∧
    (∀ r, apiRequest isDemo server endpoint body = .ok (.response r) →
      r.success = some true) ∧
    (isDemo = false → server.success ≠ some true →
      apiRequest isDemo server endpoint body =
        .error (jsOrStr server.error "Computation failed")) := by
  have hreal : ∀ d, apiRequest false server endpoint body = .ok d →
      d = .response server ∧ server.success = some true := by
    intro d hd
    unfold apiRequest realApiRequest at hd
    rw [if_neg (by decide : ¬ (false = true))] at hd
    by_cases hs : server.success = some true
    · rw [if_pos hs] at hd
      injection hd with hd
      exact ⟨hd.symm, hs⟩
    · rw [if_neg hs] at hd
      exact Except.noConfusion hd
  have hdemo : ∀ d, apiRequest true server endpoint body = .ok d →
      getDemoResponse "POST" ("/api" ++ endpoint) body = some d := by
    intro d hd
    unfold apiRequest demoApiRequest at hd
    rw [if_pos rfl] at hd
    cases hg : getDemoResponse "POST" ("/api" ++ endpoint) body with
    | none => rw [hg] at hd; exact Except.noConfusion hd
    | some v =>
      rw [hg] at hd
      injection hd with hd
      rw [hd]
  refine ⟨?_, ?_, ?_⟩
  · intro d hd
    cases isDemo with
    | true => exact getDemoResponse_post_success_not_false _ _ _ (hdemo d hd)
    | false =>
      obtain ⟨hd1, hd2⟩ := hreal d hd
      subst hd1
      simp [JsValue.success, hd2]
  · intro r hr
    cases isDemo with
    | true => exact getDemoResponse_post_response_success _ _ _ (hdemo _ hr) r rfl
    | false =>
      obtain ⟨hd1, hd2⟩ := hreal _ hr
      injection hd1 with hd1
      rw [← hd1] at hd2
      exact hd2
  · intro hdemo0 hs
    subst hdemo0
    unfold apiRequest realApiRequest
    rw [if_neg (by decide : ¬ (false = true)), if_neg hs]

/-- Witness for C7: a decoded server response with `success: false` and error
message `boom` makes `apiRequest` throw exactly that message. -/
theorem apiRequest_no_silent_failure_witness :
    apiRequest false serverFailure "/parse" none = .error "boom" :=
  (apiRequest_no_silent_failure false serverFailure "/parse" none).2.2 rfl (by decide)

/-- Claim C8: the demo response lookup is deterministic — it is embedded as a
pure total function of `method`, `path` and `body` (no state monad or IO is
needed), so identical arguments give identical results. -/
theorem getDemoResponse_deterministic (m p : String) (b : Option ReqBody)
    (m' p' : String) (b' : Option ReqBody)
    (hm : m = m') (hp : p = p') (hb : b = b') :
    getDemoResponse m p b = getDemoResponse m' p' b' := by
  subst hm; subst hp; subst hb; rfl

/-- Witness for C8: two invocations at identical concrete arguments coincide. -/
theorem getDemoResponse_deterministic_witness :
    getDemoResponse "POST" "/api/integrate/1d" none =
      getDemoResponse "POST" "/api/integrate/1d" none :=
  getDemoResponse_deterministic "POST" "/api/integrate/1d" none
    "POST" "/api/integrate/1d" none rfl rfl rfl

/-- Claim C10 counterexample: the operation tag `toString` is neither
`gradient`, `divergence` nor `curl`, yet the bracket access hits the inherited
`Object.prototype.toString` member — a truthy function the
`|| DEMO_VECTOR_OPS.gradient` fallback keeps — so the lookup resolves the
inherited member, not the gradient response. -/
theorem vector_operations_prototype_member_leaks :
    getDemoResponse "POST" "/api/vector/operations"
      (some { operation := some "toString" }) = some (.protoMember "toString") ∧
    JsValue.protoMember "toString" ≠ .response DEMO_VECTOR_OPS.gradient :=
  ⟨rfl, fun h => JsValue.noConfusion h⟩

/-- Claim C10 amended: a POST to `/api/vector/operations` whose body carries
an operation tag other than `gradient`, `divergence` or `curl` that is also
not the name of an inherited `Object.prototype` property — or no operation at
all — resolves to the gradient response, not to null or an error; at an
inherited property name such as `toString` the bracket access instead leaks
the truthy inherited member. -/
theorem vector_operations_unknown_op_gradient (b : Option ReqBody)
    (h : ∀ op, b.bind ReqBody.operation = some op →
      op ∉ (["gradient", "divergence", "curl"] : List String) ∧
      op ∉ objectPrototypeKeys) :
    getDemoResponse "POST" "/api/vector/operations" b =
      some (.response DEMO_VECTOR_OPS.gradient) := by
  have hred : getDemoResponse "POST" "/api/vector/operations" b =
      some ((DEMO_VECTOR_OPS.lookup
        (jsOrStr (b.bind ReqBody.operation) "gradient")).getD
        (.response DEMO_VECTOR_OPS.gradient)) := rfl
  rw [hred]
  cases hop : b.bind ReqBody.operation with
  | none => rfl
  | some op =>
    obtain ⟨hne, hpk⟩ := h op hop
    simp only [List.mem_cons, List.not_mem_nil, or_false, not_or] at hne
    obtain ⟨hg, hd, hc⟩ := hne
    have hj : jsOrStr (some op) "gradient" = if op = "" then "gradient" else op := rfl
    rw [hj]
    by_cases he : op = ""
    · rw [if_pos he]
      rfl
    · rw [if_neg he]
      unfold DEMO_VECTOR_OPS.lookup
      rw [if_neg hg, if_neg hd, if_neg hc, if_neg hpk]
      rfl

/-- Witness for C10: the unknown operation tag `laplacian` (not an inherited
property name) yields the gradient response. -/
theorem vector_operations_unknown_op_gradient_witness :
    getDemoResponse "POST" "/api/vector/operations"
      (some { operation := some "laplacian" }) =
      some (.response DEMO_VECTOR_OPS.gradient) :=
  vector_operations_unknown_op_gradient (some { operation := some "laplacian" })
    (by
      intro op hop
      have hol : op = "laplacian" := by
        have hsome : some "laplacian" = some op := hop
        injection hsome with h
        exact h.symm
      subst hol
      exact ⟨by decide, by decide⟩)

/-- Claim C1 counterexample: the Green demo theorem response reports only the
boundary (line) integral and the scalar curl — it carries no interior integral
value and no difference field at all — and the Stokes response's reported
difference (1e-10) is not the absolute difference of its reported boundary and
interior values (both 6.283185, so that difference is 0). -/
theorem greens_missing_interior_and_difference :
    (getDemoResponse "POST" "/api/theorem/greens" none = some (.response DEMO_GREENS) ∧
      DEMO_GREENS.verification = none ∧
      DEMO_GREENS.surface_integral = none ∧
      DEMO_GREENS.volume_integral = none ∧
      DEMO_GREENS.flux_integral = none) ∧
    (getDemoResponse "POST" "/api/theorem/stokes" none = some (.response DEMO_STOKES) ∧
      DEMO_STOKES.verification =
        some { boundary := 6.283185, interior := 6.283185, difference := 1e-10 } ∧
      (1e-10 : ℚ) ≠ |(6.283185 : ℚ) - 6.283185|) := by
  refine ⟨⟨rfl, rfl, rfl, rfl, rfl⟩, ⟨rfl, rfl, ?_⟩⟩
  norm_num

/-- Claim C1 amended: the Stokes and Divergence theorem responses report a
boundary integral value, an interior integral value and a positive difference
field (which is an error-scale figure, not literally `|boundary − interior|`
of the reported values); the Green response reports only the boundary line
integral and the scalar curl, with no interior value or difference. -/
theorem theorem_responses_reported_fields :
    (getDemoResponse "POST" "/api/theorem/greens" none = some (.response DEMO_GREENS) ∧
      DEMO_GREENS.line_integral.isSome = true ∧
      DEMO_GREENS.curl_z.isSome = true ∧
      DEMO_GREENS.verification = none) ∧
    (getDemoResponse "POST" "/api/theorem/stokes" none = some (.response DEMO_STOKES) ∧
      DEMO_STOKES.line_integral.isSome = true ∧
      DEMO_STOKES.surface_integral.isSome = true ∧
      ∃ ver, DEMO_STOKES.verification = some ver ∧ 0 < ver.difference) ∧
    (getDemoResponse "POST" "/api/theorem/divergence" none = some (.response DEMO_DIVERGENCE) ∧
      DEMO_DIVERGENCE.flux_integral.isSome = true ∧
      DEMO_DIVERGENCE.volume_integral.isSome = true ∧
      ∃ ver, DEMO_DIVERGENCE.verification = some ver ∧ 0 < ver.difference) := by
  refine ⟨⟨rfl, rfl, rfl, rfl⟩, ⟨rfl, rfl, rfl, ⟨_, rfl, ?_⟩⟩, ⟨rfl, rfl, rfl, ⟨_, rfl, ?_⟩⟩⟩
  · norm_num
  · norm_num

/-- Claim C2 counterexample: the 1-D demo integral result includes a symbolic
closed form (`1/3`) yet its reported error estimate is 3.7e-15, not 0. -/
theorem symbolic_result_error_nonzero :
    getDemoResponse "POST" "/api/integrate/1d" none = some (.response DEMO_1D) ∧
    DEMO_1D.result = some (.integral
      { symbolic := some "1/3", numerical := 0.333333, error := 3.7e-15 }) ∧
    (3.7e-15 : ℚ) ≠ 0 := by
  refine ⟨rfl, rfl, ?_⟩
  norm_num

/-- Claim C2 amended: every integral result the POST lookup can return carries
a numerical value (a total field of the embedding, mirroring the source where
every result literal has a `numerical` key) and a symbolic closed form, and
its reported error estimate is positive — small (at most 1e-3) but never
exactly 0. -/
theorem integrate_results_error_positive_small (path : String)
    (body : Option ReqBody) (jv : JsValue) (v : IntegralValue)
    (hr : getDemoResponse "POST" path body = some jv)
    (hv : jv.result = some (.integral v)) :
    v.symbolic.isSome = true ∧ 0 < v.error ∧ v.error ≤ 1e-3 := by
  refine getDemoResponse_post_elim
    (fun jv => jv.result = some (.integral v) →
      v.symbolic.isSome = true ∧ 0 < v.error ∧ v.error ≤ 1e-3)
    ?_ ?_ ?_ ?_ ?_ ?_ ?_ ?_ ?_ ?_ ?_ ?_ ?_ ?_ ?_ ?_ ?_ ?_
    (fun _ hres => Option.noConfusion hres) path body jv hr hv
  all_goals intro hres
  all_goals first
    | exact Option.noConfusion hres
    | (injection hres with hres; exact ResultVal.noConfusion hres)
    | (injection hres with hres; injection hres with hres; subst hres;
       exact ⟨rfl, by norm_num, by norm_num⟩)

/-- Witness for C2 amended: at the 1-D demo result, the symbolic form is
present and the error estimate 3.7e-15 is positive and at most 1e-3. -/
theorem integrate_results_error_positive_small_witness :
    (some "1/3" : Option String).isSome = true ∧
    (0 : ℚ) < 3.7e-15 ∧ (3.7e-15 : ℚ) ≤ 1e-3 :=
  integrate_results_error_positive_small "/api/integrate/1d" none
    (.response DEMO_1D)
    { symbolic := some "1/3", numerical := 0.333333, error := 3.7e-15 } rfl rfl

/-- Claim C3 counterexample: exchanging the u and v ranges of a flux request
leaves the demo response identical — the flux value 6.283185 is unchanged, and
an unchanged nonzero value is not a negated one. -/
theorem flux_swap_does_not_negate :
    getDemoResponse "POST" "/api/integrate/flux"
        (some (swapUV { u_range := some ["0", "pi/2"], v_range := some ["0", "2*pi"] })) =
      getDemoResponse "POST" "/api/integrate/flux"
        (some { u_range := some ["0", "pi/2"], v_range := some ["0", "2*pi"] }) ∧
    getDemoResponse "POST" "/api/integrate/flux"
        (some { u_range := some ["0", "pi/2"], v_range := some ["0", "2*pi"] }) =
      some (.response DEMO_FLUX) ∧
    DEMO_FLUX.result = some (.integral
      { symbolic := some "2*pi", numerical := 6.283185, error := 1e-10 }) ∧
    (6.283185 : ℚ) ≠ -(6.283185 : ℚ) := by
  refine ⟨rfl, rfl, rfl, ?_⟩
  norm_num

/-- Claim C3 amended: the demo flux lookup never reads the request body, so
swapping the two surface-parameter ranges leaves the computed flux response
(value, sign and magnitude) unchanged; no sign flip occurs. -/
theorem flux_response_ignores_ranges (b : ReqBody) :
    getDemoResponse "POST" "/api/integrate/flux" (some (swapUV b)) =
      getDemoResponse "POST" "/api/integrate/flux" (some b) ∧
    getDemoResponse "POST" "/api/integrate/flux" (some b) =
      some (.response DEMO_FLUX) :=
  ⟨rfl, rfl⟩

/-- Claim C4 counterexample: `qq` is outside the declared variable set, yet
the demo parse lookup answers the request with a successful canned response
(the parse of `x**2`) instead of a ParseError. -/
theorem parse_accepts_undeclared_identifier :
    "qq" ∉ declaredVariables ∧
    getDemoResponse "POST" "/api/parse" (some { expression := some "qq" }) =
      some (.response DEMO_PARSE) ∧
    DEMO_PARSE.success = some true ∧
    DEMO_PARSE.parsed = some "x**2" := by
  refine ⟨by decide, rfl, rfl, rfl⟩

/-- Claim C4 amended: in demo mode the parse lookup ignores the input
expression entirely — every POST `/api/parse` body, including one whose
expression holds an undeclared identifier, receives the fixed successful
response for `x**2`, never a ParseError; the rejecting parser lives in the
backend, which is outside the shipped sources. -/
theorem parse_response_constant (b : Option ReqBody) :
    getDemoResponse "POST" "/api/parse" b = some (.response DEMO_PARSE) ∧
    DEMO_PARSE.success = some true ∧
    DEMO_PARSE.parsed = some "x**2" :=
  ⟨rfl, rfl, rfl⟩

/-- Claim C5: the divergence-theorem demo response for `F=(x,y,z)` on the unit
sphere reports a flux integral and a volume integral both equal to 4π within
1e-3, and a reported difference of 0.001 ≤ 1e-3. -/
theorem divergence_theorem_demo_4pi :
    getDemoResponse "POST" "/api/theorem/divergence" none = some (.response DEMO_DIVERGENCE) ∧
    ∃ fi vi ver,
      DEMO_DIVERGENCE.flux_integral = some fi ∧
      DEMO_DIVERGENCE.volume_integral = some vi ∧
      DEMO_DIVERGENCE.verification = some ver ∧
      |(fi.numerical : ℝ) - 4 * Real.pi| ≤ 1e-3 ∧
      |(vi.numerical : ℝ) - 4 * Real.pi| ≤ 1e-3 ∧
      ver.difference ≤ 1e-3 := by
  have hpi1 := Real.pi_gt_d6
  have hpi2 := Real.pi_lt_d6
  have hnum : ((12.566371 : ℚ) : ℝ) = 12.566371 := by norm_num
  refine ⟨rfl, _, _, _, rfl, rfl, rfl, ?_, ?_, by norm_num⟩ <;>
  · show |((12.566371 : ℚ) : ℝ) - 4 * Real.pi| ≤ 1e-3
    rw [hnum, abs_le]
    constructor <;> nlinarith

/-- Claim C6 counterexample: the line-scalar demo response reports numerical
value 6.283185 with error estimate 1e-12, but |6.283185 − 2π| ≈ 3.07e-7 is far
larger than 1e-12, so the value is not equal to 2π within the response's own
reported error estimate. -/
theorem line_scalar_outside_reported_error :
    getDemoResponse "POST" "/api/integrate/line/scalar" none = some (.response DEMO_LINE_SCALAR) ∧
    DEMO_LINE_SCALAR.result = some (.integral
      { symbolic := some "2*pi", numerical := 6.283185, error := 1e-12 }) ∧
    ¬ |((6.283185 : ℚ) : ℝ) - 2 * Real.pi| ≤ ((1e-12 : ℚ) : ℝ) := by
  have hpi := Real.pi_gt_d20
  have h1 : ((6.283185 : ℚ) : ℝ) = 6.283185 := by norm_num
  have h2 : ((1e-12 : ℚ) : ℝ) = 1e-12 := by norm_num
  refine ⟨rfl, rfl, ?_⟩
  rw [h1, h2, abs_le, not_and_or]
  left
  push_neg
  nlinarith

/-- Claim C6 amended: the line-scalar demo response (constant integrand 1 on
the unit-circle parametrization over [0,2π]) reports a numerical value equal
to 2π within 1e-6 — but not within its own reported error estimate of
1e-12. -/
theorem line_scalar_matches_2pi_within_micro :
    getDemoResponse "POST" "/api/integrate/line/scalar" none = some (.response DEMO_LINE_SCALAR) ∧
    ∃ v, DEMO_LINE_SCALAR.result = some (.integral v) ∧
      v.symbolic = some "2*pi" ∧
      |(v.numerical : ℝ) - 2 * Real.pi| ≤ 1e-6 ∧
      ¬ |(v.numerical : ℝ) - 2 * Real.pi| ≤ (v.error : ℝ) := by
  have hgt := Real.pi_gt_d20
  have hlt := Real.pi_lt_d6
  have h1 : ((6.283185 : ℚ) : ℝ) = 6.283185 := by norm_num
  have h2 : ((1e-12 : ℚ) : ℝ) = 1e-12 := by norm_num
  refine ⟨rfl, _, rfl, rfl, ?_, ?_⟩
  · show |((6.283185 : ℚ) : ℝ) - 2 * Real.pi| ≤ 1e-6
    rw [h1, abs_le]
    constructor <;> nlinarith
  · show ¬ |((6.283185 : ℚ) : ℝ) - 2 * Real.pi| ≤ ((1e-12 : ℚ) : ℝ)
    rw [h1, h2, abs_le, not_and_or]
    left
    push_neg
    nlinarith
